import Mathlib

/-!
Shallow embedding of `src/graphic_engine.rs` (and the loop glue in
`src/lib.rs`) from the `vulkan_tutorial` repository.

The external GPU API (vulkano) and window system (winit) are collaborators:
every value the driver reports (enumerated physical devices, surface
capabilities, surface formats, acquired images, flush results, the window
extent) enters the model as an explicit argument.  Rust `panic!` / `unwrap`
failures are modelled as `Except.error` with the corresponding message;
normal returns are `Except.ok`.  Opaque reference-counted handles that carry
no observable state in the source (`Arc<Device>`, `Arc<Queue>`,
`Arc<Surface>`, the command-buffer allocator) are omitted from the state
record, since no claim and no modelled operation inspects them.
-/

namespace VulkanTutorial

/-- Model of `vulkano::device::physical::PhysicalDeviceType`.  The Rust enum is
non-exhaustive, but these five variants are the only constructible ones;
the source's `_ => 5` match arm is unreachable for them. -/
inductive PhysicalDeviceType where
  | DiscreteGpu
  | IntegratedGpu
  | VirtualGpu
  | Cpu
  | Other
deriving DecidableEq, Repr

/-- One entry of `physical_device.queue_family_properties()`, together with
the result of `physical_device.surface_support(i, surface)` for this family
index and the (fixed) surface: the source queries surface support exactly
once per family, so the per-family query result is stored in the record.
`surface_support = none` models the `Err` case that `unwrap_or(false)`
absorbs. -/
structure QueueFamilyProperties where
  graphics : Bool
  surface_support : Option Bool
deriving DecidableEq, Repr

/-- A physical device as the source observes it: its device type, whether
`supported_extensions().contains(&device_extensions)` holds for the required
extension set, and its queue families. -/
structure PhysicalDevice where
  device_type : PhysicalDeviceType
  supports_extensions : Bool
  queue_family_properties : List QueueFamilyProperties
deriving DecidableEq, Repr

/-- The closure at `graphic_engine.rs:239-246`: score used by `min_by_key`
(lower = preferred).  `Other` scores 4; the `_ => 5` arm has no constructible
inhabitant and is not modelled. -/
def device_type_score : PhysicalDeviceType → Nat
  | .DiscreteGpu => 0
  | .IntegratedGpu => 1
  | .VirtualGpu => 2
  | .Cpu => 3
  | .Other => 4

/-- From `graphic_engine.rs:224-234`: the first queue family index whose flags
include graphics and whose surface-support query returns `Ok(true)`
(`unwrap_or(false)` maps a query error to `false`).  `iter().enumerate().position`
over the family list is `List.findIdx?`. -/
def compatible_queue_family_index (d : PhysicalDevice) : Option Nat :=
  d.queue_family_properties.findIdx?
    (fun qf => qf.graphics && qf.surface_support.getD false)

/-- Rust `Iterator::min_by_key`: the element with minimal key; on ties the
first such element is returned. -/
def min_by_key {α : Type} (key : α → Nat) : List α → Option α
  | [] => none
  | x :: xs =>
    match min_by_key key xs with
    | none => some x
    | some y => if key x ≤ key y then some x else some y

/-- The candidate list built at `graphic_engine.rs:215-236`: devices
supporting the required extensions, paired (via `filter_map`) with their
first graphics+present queue family index. -/
def compatible_candidates (devices : List PhysicalDevice) :
    List (PhysicalDevice × Nat) :=
  (devices.filter (fun d => d.supports_extensions)).filterMap
    (fun d => (compatible_queue_family_index d).map (fun i => (d, i)))

/-- Model of `Graphicengine::get_best_compatible_physical_device`
(`graphic_engine.rs:210-249`).  `none` models the
`.expect("No suitable physical device found")` panic on an empty candidate
set. -/
def get_best_compatible_physical_device (devices : List PhysicalDevice) :
    Option (PhysicalDevice × Nat) :=
  min_by_key (fun pi => device_type_score pi.1.device_type)
    (compatible_candidates devices)

theorem min_by_key_mem {α : Type} (key : α → Nat) :
    ∀ (l : List α) (x : α), min_by_key key l = some x → x ∈ l := by
  intro l
  induction l with
  | nil => intro x h; simp [min_by_key] at h
  | cons a as ih =>
    intro x h
    simp only [min_by_key] at h
    cases hm : min_by_key key as with
    | none => rw [hm] at h; simp at h; simp [h]
    | some y =>
      rw [hm] at h
      by_cases hk : key a ≤ key y
      · simp [hk] at h; simp [h]
      · simp [hk] at h
        exact List.mem_cons_of_mem a (ih x (h ▸ hm))

theorem min_by_key_isSome {α : Type} (key : α → Nat) (l : List α)
    (h : l ≠ []) : (min_by_key key l).isSome = true := by
  cases l with
  | nil => exact absurd rfl h
  | cons a as =>
    simp only [min_by_key]
    cases min_by_key key as with
    | none => rfl
    | some y => by_cases hk : key a ≤ key y <;> simp [hk]

theorem min_by_key_le {α : Type} (key : α → Nat) :
    ∀ (l : List α) (x : α), min_by_key key l = some x →
      ∀ y ∈ l, key x ≤ key y := by
  intro l
  induction l with
  | nil => intro x h; simp [min_by_key] at h
  | cons a as ih =>
    intro x h y hy
    simp only [min_by_key] at h
    cases hm : min_by_key key as with
    | none =>
      rw [hm] at h; simp at h
      have has : as = [] := by
        by_contra hne
        have := min_by_key_isSome key as hne
        rw [hm] at this
        simp at this
      subst has
      have hya : y = a := by simpa using hy
      subst hya
      exact h ▸ Nat.le_refl _
    | some z =>
      rw [hm] at h
      rcases List.mem_cons.mp hy with hya | hy'
      · rw [hya]
        by_cases hk : key a ≤ key z
        · simp [hk] at h; subst h; exact Nat.le_refl _
        · simp [hk] at h
          subst h
          exact Nat.le_of_lt (Nat.lt_of_not_le hk)
      · have hz := ih z hm y hy'
        by_cases hk : key a ≤ key z
        · simp [hk] at h; subst h; exact Nat.le_trans hk hz
        · simp [hk] at h; subst h; exact hz

theorem mem_compatible_candidates (devices : List PhysicalDevice)
    (d : PhysicalDevice) (i : Nat) :
    (d, i) ∈ compatible_candidates devices ↔
      d ∈ devices ∧ d.supports_extensions = true ∧
        compatible_queue_family_index d = some i := by
  simp only [compatible_candidates, List.mem_filterMap, List.mem_filter]
  constructor
  · rintro ⟨a, ⟨ha, hext⟩, hmap⟩
    cases hci : compatible_queue_family_index a with
    | none => rw [hci] at hmap; simp at hmap
    | some j =>
      rw [hci] at hmap
      simp at hmap
      obtain ⟨rfl, rfl⟩ := hmap
      exact ⟨ha, hext, hci⟩
  · rintro ⟨hd, hext, hci⟩
    exact ⟨d, ⟨hd, hext⟩, by simp [hci]⟩

/-- A surface format identifier (`vulkano::format::Format`); the engine only
selects and stores formats reported by the device, so the identity is all
that is modelled. -/
structure Format where
  code : Nat
deriving DecidableEq, Repr

/-- Model of `vulkano::swapchain::ColorSpace`, the second component of each entry of
`surface_formats`. -/
structure ColorSpace where
  code : Nat
deriving DecidableEq, Repr

/-- Model of the `vulkano::image::ImageUsage` flag set, carried opaquely from
`caps.supported_usage_flags` into the swapchain configuration. -/
structure ImageUsage where
  flags : Nat
deriving DecidableEq, Repr

/-- Model of `vulkano::swapchain::CompositeAlpha`. -/
inductive CompositeAlpha where
  | Opaque
  | PreMultiplied
  | PostMultiplied
  | Inherit
deriving DecidableEq, Repr

/-- The fields of `vulkano::swapchain::SwapchainCreateInfo` that
`get_swapchain` sets explicitly (`graphic_engine.rs:296-303`).  The remaining
vulkano fields keep their `Default::default()` values at creation and are
copied verbatim by `..self.swapchain.create_info()` on recreation, so they
carry no information in this program and are not modelled. -/
structure SwapchainCreateInfo where
  min_image_count : Nat
  image_format : Option Format
  image_extent : Nat × Nat
  image_usage : ImageUsage
  composite_alpha : CompositeAlpha
deriving DecidableEq, Repr

/-- A swapchain, observable through `create_info()` (and
`image_format()` = `create_info.image_format`). -/
structure Swapchain where
  create_info : SwapchainCreateInfo
deriving DecidableEq, Repr

/-- One presentable image of the swapchain; `dimensions().width_height()` is
the only attribute the engine reads. -/
structure SwapchainImage where
  dimensions : Nat × Nat
deriving DecidableEq, Repr

/-- Result of `ImageView::new_default(image)` — a view wrapping one image. -/
structure ImageViewT where
  image : SwapchainImage
deriving DecidableEq, Repr

/-- The render pass built by `single_pass_renderpass!`
(`graphic_engine.rs:64-79`): one color attachment, load=Clear, store=Store,
samples=1, with the swapchain's image format. -/
structure RenderPass where
  color_format : Format
deriving DecidableEq, Repr

/-- A framebuffer: the shared render pass plus the attachment list
(`FramebufferCreateInfo { attachments: vec![view], .. }`). -/
structure Framebuffer where
  render_pass : RenderPass
  attachments : List ImageViewT
deriving DecidableEq, Repr

/-- Model of `vulkano::pipeline::graphics::viewport::Viewport`
(`graphic_engine.rs:82-86`): origin, dimensions (f32 pairs) and depth range
`0.0..1.0`. -/
structure Viewport where
  origin : Float × Float
  dimensions : Float × Float
  depth_range_lo : Float
  depth_range_hi : Float

/-- Four f32 components of a float clear value. -/
def Rgba : Type := Float × Float × Float × Float

/-- Model of `vulkano::format::ClearValue` — only the `Float` variant is used. -/
inductive ClearValue where
  | Float (v : Rgba)

/-- The primary command buffer recorded each frame: its clear values and the
framebuffer its render pass begins against (`graphic_engine.rs:132-153`).
Builder fallibility (`AutoCommandBufferBuilder::primary`,
`begin_render_pass`, `end_render_pass`, `build`, all `.unwrap()`ed) is
host-side and modelled as succeeding; no claim touches those panics. -/
structure CommandBuffer where
  clear_values : List (Option ClearValue)
  framebuffer : Framebuffer

/-- The `Box<dyn GpuFuture>` chain as the engine builds it:
`sync::now(device)` or the per-frame chain
`prev.join(acquire).then_execute(queue, cmd)
  .then_swapchain_present(queue, index).then_signal_fence_and_flush()`. -/
inductive GpuFuture where
  | now
  | chain (prev : GpuFuture) (acquire_future : GpuFuture)
      (command_buffer : CommandBuffer) (image_index : Nat)

/-- Model of `vulkano::swapchain::AcquireError`: `OutOfDate` is matched by name at
`graphic_engine.rs:118`; every other variant falls into the panicking arm
and is carried as its debug string. -/
inductive AcquireError where
  | OutOfDate
  | other (e : String)

/-- Model of `vulkano::sync::FlushError`, matched the same way at
`graphic_engine.rs:172-179`. -/
inductive FlushError where
  | OutOfDate
  | other (e : String)

/-- Model of `vulkano::swapchain::SwapchainCreationError`:
`ImageExtentNotSupported` is matched by name at `graphic_engine.rs:197`. -/
inductive SwapchainCreationError where
  | ImageExtentNotSupported
  | other (e : String)

/-- Result of `swapchain::acquire_next_image` as the driver reports it:
image index, the suboptimal flag and the acquisition future, or an error. -/
inductive AcquireResult where
  | ok (image_index : Nat) (suboptimal : Bool) (acquire_future : GpuFuture)
  | err (e : AcquireError)

/-- The mutable state of `Graphicengine` (`graphic_engine.rs:26-37`).  The
opaque handles `surface`, `device`, `queue` and the command-buffer allocator
are never inspected or replaced after construction and are omitted. -/
structure Graphicengine where
  swapchain : Swapchain
  framebuffers : List Framebuffer
  render_pass : RenderPass
  viewport : Viewport
  previous_frame_end : Option GpuFuture

/-- From `graphic_engine.rs:93`: the field value `new` stores,
`Some(Box::new(sync::now(device)))`. -/
def initial_previous_frame_end : Option GpuFuture :=
  some GpuFuture.now

/-- Observable effects of one `render` call: whether a command buffer was
recorded, whether the execute/present chain was submitted and flushed, and
what (if anything) was printed to stdout. -/
structure RenderEffects where
  recorded : Bool
  submitted : Bool
  presented : Bool
  logged : Option String

/-- Model of `Graphicengine::get_swapchain` (`graphic_engine.rs:270-306`), with the
driver-reported surface capabilities, surface-format list and window extent
as inputs.  `caps.supported_composite_alpha.iter().next().unwrap()` and the
unguarded index `[1]` into the format list are the two possible panics; the
returned image list comes from the driver and is not produced here.
`Swapchain::new`'s own driver failure (`.unwrap()`) is outside the model. -/
def get_swapchain (caps_min_image_count : Nat)
    (caps_supported_usage_flags : ImageUsage)
    (caps_supported_composite_alpha : List CompositeAlpha)
    (surface_formats : List (Format × ColorSpace))
    (window_extent : Nat × Nat) : Except String Swapchain :=
  match caps_supported_composite_alpha.head? with
  | none => Except.error ("called Option::unwrap on a None value")
  | some alpha =>
    match surface_formats[1]? with
    | none =>
      Except.error ("index out of bounds: the len is " ++
        toString surface_formats.length ++ " but the index is 1")
    | some fmt =>
      Except.ok
        { create_info :=
          { min_image_count := caps_min_image_count
            image_format := some fmt.1
            image_extent := window_extent
            image_usage := caps_supported_usage_flags
            composite_alpha := alpha } }

/-- Model of `Graphicengine::window_size_dependent_setup`
(`graphic_engine.rs:308-330`): read `images[0]` (panics on an empty list),
overwrite the viewport dimensions with that image's width/height cast to
f32, and build one framebuffer per image, each holding a default view of its
image and the shared render pass. -/
def window_size_dependent_setup (images : List SwapchainImage)
    (render_pass : RenderPass) (viewport : Viewport) :
    Except String (List Framebuffer × Viewport) :=
  match images[0]? with
  | none => Except.error ("index out of bounds: the len is 0 but the index is 0")
  | some img0 =>
    let dimensions := img0.dimensions
    let viewport' := { viewport with
      dimensions := (Float.ofNat dimensions.1, Float.ofNat dimensions.2) }
    Except.ok
      (images.map (fun image =>
        { render_pass := render_pass
          attachments := [{ image := image }] }),
       viewport')

/-- Model of `Graphicengine::recreate_swapchain` (`graphic_engine.rs:183-208`).
`window_extent` is the window's current `inner_size()`; `driver` is what
`self.swapchain.recreate(...)` reports for the requested configuration
(the old `create_info()` with only `image_extent` replaced).  On
`ImageExtentNotSupported` the function returns early, mutating nothing —
in particular the `recreate_swapchain` flag keeps its incoming value.  Any
other creation error panics. -/
def recreate_swapchain (s : Graphicengine) (recreate_flag : Bool)
    (window_extent : Nat × Nat)
    (driver : Except SwapchainCreationError (List SwapchainImage)) :
    Except String (Graphicengine × Bool) :=
  match driver with
  | Except.error SwapchainCreationError.ImageExtentNotSupported =>
    Except.ok (s, recreate_flag)
  | Except.error (SwapchainCreationError.other e) =>
    Except.error ("Failed to recreate swapchain: " ++ e)
  | Except.ok new_images =>
    let new_swapchain : Swapchain :=
      { create_info :=
        { s.swapchain.create_info with image_extent := window_extent } }
    match window_size_dependent_setup new_images s.render_pass s.viewport with
    | Except.error e => Except.error e
    | Except.ok (fbs, vp) =>
      Except.ok
        ({ s with
            swapchain := new_swapchain
            framebuffers := fbs
            viewport := vp },
         false)

/-- Model of `Graphicengine::render` (`graphic_engine.rs:108-181`).  `acquire` is the
driver's answer to `acquire_next_image`, and `flush_err` the failure (if
any) of `then_signal_fence_and_flush` on this frame's chain.  The opening
statement `self.previous_frame_end.as_mut().take().unwrap().cleanup_finished()`
calls `Option::take` on the temporary returned by `as_mut`, so it panics if
the field is `None` but never empties the field itself; the later
`self.previous_frame_end.take().unwrap()` (line 156-158) does empty it, and
every arm of the final `match` stores a `Some` back. -/
def render (s : Graphicengine) (recreate_flag : Bool)
    (acquire : AcquireResult) (flush_err : Option FlushError) :
    Except String (Graphicengine × Bool × RenderEffects) :=
  match s.previous_frame_end with
  | none => Except.error ("called Option::unwrap on a None value")
  | some prev =>
    match acquire with
    | AcquireResult.err AcquireError.OutOfDate =>
      Except.ok (s, true,
        { recorded := false, submitted := false, presented := false
          logged := none })
    | AcquireResult.err (AcquireError.other e) =>
      Except.error ("Failed to acquire next image: " ++ e)
    | AcquireResult.ok image_index suboptimal acquire_future =>
      let flag1 := if suboptimal then true else recreate_flag
      let clear_values : List (Option ClearValue) :=
        [some (ClearValue.Float (0.0, 0.68, 1.0, 1.0))]
      match s.framebuffers[image_index]? with
      | none =>
        Except.error ("index out of bounds: the len is " ++
          toString s.framebuffers.length ++ " but the index is " ++
          toString image_index)
      | some fb =>
        let command_buffer : CommandBuffer :=
          { clear_values := clear_values, framebuffer := fb }
        match flush_err with
        | none =>
          let future :=
            GpuFuture.chain prev acquire_future command_buffer image_index
          Except.ok
            ({ s with previous_frame_end := some future },
             flag1,
             { recorded := true, submitted := true, presented := true
               logged := none })
        | some FlushError.OutOfDate =>
          Except.ok
            ({ s with previous_frame_end := some GpuFuture.now },
             true,
             { recorded := true, submitted := true, presented := true
               logged := none })
        | some (FlushError.other e) =>
          Except.ok
            ({ s with previous_frame_end := some GpuFuture.now },
             flag1,
             { recorded := true, submitted := true, presented := true
               logged := some ("Failed to flush future: " ++ e) })

/-! Concrete sample values used to instantiate the theorems. -/

def integrated_sample : PhysicalDevice :=
  { device_type := PhysicalDeviceType.IntegratedGpu
    supports_extensions := true
    queue_family_properties := [{ graphics := true, surface_support := some true }] }

def discrete_sample : PhysicalDevice :=
  { device_type := PhysicalDeviceType.DiscreteGpu
    supports_extensions := true
    queue_family_properties := [{ graphics := true, surface_support := some true }] }

def sample_format : Format := { code := 0 }

def sample_render_pass : RenderPass := { color_format := sample_format }

def sample_image : SwapchainImage := { dimensions := (640, 480) }

def sample_framebuffer : Framebuffer :=
  { render_pass := sample_render_pass
    attachments := [{ image := sample_image }] }

def sample_viewport : Viewport :=
  { origin := (0.0, 0.0)
    dimensions := (0.0, 0.0)
    depth_range_lo := 0.0
    depth_range_hi := 1.0 }

def sample_swapchain : Swapchain :=
  { create_info :=
    { min_image_count := 2
      image_format := some sample_format
      image_extent := (640, 480)
      image_usage := { flags := 1 }
      composite_alpha := CompositeAlpha.Opaque } }

def sample_engine : Graphicengine :=
  { swapchain := sample_swapchain
    framebuffers := [sample_framebuffer]
    render_pass := sample_render_pass
    viewport := sample_viewport
    previous_frame_end := some GpuFuture.now }

/-! Claim theorems. -/

/-- C1: whenever image acquisition reports `OutOfDate`, `render` sets the
recreation flag and returns normally with the state untouched: no command
buffer is recorded, nothing is submitted or presented, nothing is logged,
and the call does not panic (it returns `Except.ok`, never
`Except.error`). -/
theorem render_acquire_out_of_date (s : Graphicengine) (recreate_flag : Bool)
    (flush_err : Option FlushError)
    (h : s.previous_frame_end.isSome = true) :
    render s recreate_flag (AcquireResult.err AcquireError.OutOfDate)
        flush_err =
      Except.ok (s, true,
        { recorded := false, submitted := false, presented := false
          logged := none }) := by
  obtain ⟨p, hp⟩ := Option.isSome_iff_exists.mp h
  unfold render
  rw [hp]

theorem render_acquire_out_of_date_witness :
    render sample_engine false
        (AcquireResult.err AcquireError.OutOfDate) none =
      Except.ok (sample_engine, true,
        { recorded := false, submitted := false, presented := false
          logged := none }) :=
  render_acquire_out_of_date sample_engine false none rfl

/-- C2: for any device list containing at least one adapter that supports
the required extensions and has a graphics+present queue family, the
selector returns a qualifying pair whose device-type score — the order
discrete GPU (0) < integrated GPU (1) < virtual GPU (2) < software/CPU (3)
< other (4) — is minimal among all qualifying adapters; and for two such
adapters of types integrated and discrete, the discrete one is returned. -/
theorem device_selector_minimal :
    (∀ (devices : List PhysicalDevice) (d : PhysicalDevice) (i : Nat),
      d ∈ devices → d.supports_extensions = true →
      compatible_queue_family_index d = some i →
      ∃ p j, get_best_compatible_physical_device devices = some (p, j) ∧
        p ∈ devices ∧ p.supports_extensions = true ∧
        compatible_queue_family_index p = some j ∧
        ∀ q ∈ devices, q.supports_extensions = true →
          ∀ k, compatible_queue_family_index q = some k →
            device_type_score p.device_type ≤
              device_type_score q.device_type) ∧
    (∀ (d e : PhysicalDevice) (i j : Nat),
      d.supports_extensions = true → e.supports_extensions = true →
      compatible_queue_family_index d = some i →
      compatible_queue_family_index e = some j →
      d.device_type = PhysicalDeviceType.IntegratedGpu →
      e.device_type = PhysicalDeviceType.DiscreteGpu →
      get_best_compatible_physical_device [d, e] = some (e, j)) := by
  constructor
  · intro devices d i hd hext hci
    have hdc : (d, i) ∈ compatible_candidates devices :=
      (mem_compatible_candidates devices d i).mpr ⟨hd, hext, hci⟩
    have hne : compatible_candidates devices ≠ [] := by
      intro hnil
      rw [hnil] at hdc
      exact absurd hdc (List.not_mem_nil _)
    have hs := min_by_key_isSome
      (fun pi => device_type_score pi.1.device_type) _ hne
    obtain ⟨⟨p, j⟩, hp⟩ := Option.isSome_iff_exists.mp hs
    have hmem := min_by_key_mem _ _ _ hp
    obtain ⟨hpdev, hpext, hpci⟩ :=
      (mem_compatible_candidates devices p j).mp hmem
    refine ⟨p, j, hp, hpdev, hpext, hpci, ?_⟩
    intro q hq hqext k hqk
    have hqc : (q, k) ∈ compatible_candidates devices :=
      (mem_compatible_candidates devices q k).mpr ⟨hq, hqext, hqk⟩
    exact min_by_key_le _ _ _ hp (q, k) hqc
  · intro d e i j hde hee hci hcj htd hte
    simp [get_best_compatible_physical_device, compatible_candidates,
      hde, hee, hci, hcj, min_by_key, device_type_score, htd, hte]

theorem device_selector_minimal_witness :
    get_best_compatible_physical_device [integrated_sample, discrete_sample] =
      some (discrete_sample, 0) :=
  device_selector_minimal.2 integrated_sample discrete_sample 0 0
    rfl rfl rfl rfl rfl rfl

/-- C3: when the driver reports `ImageExtentNotSupported` for the requested
extent, `recreate_swapchain` returns normally (no panic) with the engine
state — swapchain, framebuffers, viewport — exactly as it was, and the
pending-recreation flag still `true` so recreation is retried later. -/
theorem recreate_extent_not_supported (s : Graphicengine) (ext : Nat × Nat) :
    recreate_swapchain s true ext
        (Except.error SwapchainCreationError.ImageExtentNotSupported) =
      Except.ok (s, true) := rfl

/-- C4: when this frame's submit-present-flush chain fails, `render` still
returns normally (the process does not terminate).  An `OutOfDate` flush
sets the recreation flag and resets the in-flight future to the
already-complete placeholder `sync::now`; any other flush failure leaves the
flag as the suboptimal check determined it, prints the error, and likewise
resets the in-flight future to the placeholder. -/
theorem render_flush_failure (s : Graphicengine) (recreate_flag : Bool)
    (image_index : Nat) (suboptimal : Bool) (acquire_future : GpuFuture)
    (fb : Framebuffer) (prev : GpuFuture)
    (hp : s.previous_frame_end = some prev)
    (hfb : s.framebuffers[image_index]? = some fb) :
    render s recreate_flag
        (AcquireResult.ok image_index suboptimal acquire_future)
        (some FlushError.OutOfDate) =
      Except.ok ({ s with previous_frame_end := some GpuFuture.now },
        true,
        { recorded := true, submitted := true, presented := true
          logged := none }) ∧
    ∀ (e : String),
      render s recreate_flag
          (AcquireResult.ok image_index suboptimal acquire_future)
          (some (FlushError.other e)) =
        Except.ok ({ s with previous_frame_end := some GpuFuture.now },
          (if suboptimal then true else recreate_flag),
          { recorded := true, submitted := true, presented := true
            logged := some ("Failed to flush future: " ++ e) }) := by
  constructor
  · simp [render, hp, hfb]
  · intro e
    simp [render, hp, hfb]

theorem render_flush_failure_witness :
    render sample_engine false (AcquireResult.ok 0 false GpuFuture.now)
        (some FlushError.OutOfDate) =
      Except.ok ({ sample_engine with previous_frame_end := some GpuFuture.now },
        true,
        { recorded := true, submitted := true, presented := true
          logged := none }) :=
  (render_flush_failure sample_engine false 0 false GpuFuture.now
    sample_framebuffer GpuFuture.now rfl rfl).1

/-- C5: the color format `get_swapchain` stores in the swapchain
configuration is the first component of the entry at index 1 — the second
format — of the device-reported surface-format list. -/
theorem get_swapchain_second_format (cmin : Nat) (usage : ImageUsage)
    (alphas : List CompositeAlpha) (alpha0 : CompositeAlpha)
    (surface_formats : List (Format × ColorSpace)) (f1 : Format × ColorSpace)
    (ext : Nat × Nat)
    (ha : alphas.head? = some alpha0)
    (hf : surface_formats[1]? = some f1) :
    get_swapchain cmin usage alphas surface_formats ext =
      Except.ok
        { create_info :=
          { min_image_count := cmin
            image_format := some f1.1
            image_extent := ext
            image_usage := usage
            composite_alpha := alpha0 } } := by
  unfold get_swapchain
  rw [ha, hf]

theorem get_swapchain_second_format_witness :
    get_swapchain 2 { flags := 1 } [CompositeAlpha.Opaque]
        [({ code := 10 }, { code := 0 }), ({ code := 11 }, { code := 0 })]
        (640, 480) =
      Except.ok
        { create_info :=
          { min_image_count := 2
            image_format := some { code := 11 }
            image_extent := (640, 480)
            image_usage := { flags := 1 }
            composite_alpha := CompositeAlpha.Opaque } } :=
  get_swapchain_second_format 2 { flags := 1 } [CompositeAlpha.Opaque]
    CompositeAlpha.Opaque
    [({ code := 10 }, { code := 0 }), ({ code := 11 }, { code := 0 })]
    ({ code := 11 }, { code := 0 }) (640, 480) rfl rfl

/-- C6: on a successful recreation the new swapchain's configuration equals
the old one in every field except `image_extent`, which becomes the
window's current extent; the pending-recreation flag is cleared. -/
theorem recreate_replaces_only_extent (s : Graphicengine)
    (recreate_flag : Bool) (ext : Nat × Nat) (imgs : List SwapchainImage)
    (img0 : SwapchainImage) (h0 : imgs[0]? = some img0) :
    ∃ (s' : Graphicengine),
      recreate_swapchain s recreate_flag ext (Except.ok imgs) =
        Except.ok (s', false) ∧
      s'.swapchain.create_info.image_extent = ext ∧
      s'.swapchain.create_info.min_image_count =
        s.swapchain.create_info.min_image_count ∧
      s'.swapchain.create_info.image_format =
        s.swapchain.create_info.image_format ∧
      s'.swapchain.create_info.image_usage =
        s.swapchain.create_info.image_usage ∧
      s'.swapchain.create_info.composite_alpha =
        s.swapchain.create_info.composite_alpha := by
  refine ⟨{ s with
      swapchain :=
        { create_info :=
          { s.swapchain.create_info with image_extent := ext } }
      framebuffers := imgs.map (fun image =>
        { render_pass := s.render_pass
          attachments := [{ image := image }] })
      viewport := { s.viewport with
        dimensions :=
          (Float.ofNat img0.dimensions.1, Float.ofNat img0.dimensions.2) } },
    ?_, rfl, rfl, rfl, rfl, rfl⟩
  simp [recreate_swapchain, window_size_dependent_setup, h0]

theorem recreate_replaces_only_extent_witness :
    ∃ (s' : Graphicengine),
      recreate_swapchain sample_engine true (800, 600)
          (Except.ok [sample_image]) =
        Except.ok (s', false) ∧
      s'.swapchain.create_info.image_extent = (800, 600) ∧
      s'.swapchain.create_info.min_image_count =
        sample_engine.swapchain.create_info.min_image_count ∧
      s'.swapchain.create_info.image_format =
        sample_engine.swapchain.create_info.image_format ∧
      s'.swapchain.create_info.image_usage =
        sample_engine.swapchain.create_info.image_usage ∧
      s'.swapchain.create_info.composite_alpha =
        sample_engine.swapchain.create_info.composite_alpha :=
  recreate_replaces_only_extent sample_engine true (800, 600)
    [sample_image] sample_image rfl

/-- C7: on every framebuffer (re)build — the routine both initial creation
and every successful recreation call — there is exactly one framebuffer per
swapchain image, and framebuffer `i` holds the default view of swapchain
image `i` together with the shared render pass. -/
theorem setup_framebuffers_per_image (images : List SwapchainImage)
    (rp : RenderPass) (vp : Viewport) (img0 : SwapchainImage)
    (h0 : images[0]? = some img0) :
    ∃ (fbs : List Framebuffer) (vp' : Viewport),
      window_size_dependent_setup images rp vp = Except.ok (fbs, vp') ∧
      fbs.length = images.length ∧
      ∀ (i : Nat) (h1 : i < fbs.length) (h2 : i < images.length),
        fbs[i] = { render_pass := rp
                   attachments := [{ image := images[i] }] } := by
  refine ⟨images.map (fun image =>
      { render_pass := rp
        attachments := [{ image := image }] }),
    { vp with dimensions :=
        (Float.ofNat img0.dimensions.1, Float.ofNat img0.dimensions.2) },
    ?_, by simp, ?_⟩
  · unfold window_size_dependent_setup
    rw [h0]
  · intro i h1 h2
    simp

theorem setup_framebuffers_per_image_witness :
    ∃ (fbs : List Framebuffer) (vp' : Viewport),
      window_size_dependent_setup [sample_image] sample_render_pass
          sample_viewport =
        Except.ok (fbs, vp') ∧
      fbs.length = [sample_image].length ∧
      ∀ (i : Nat) (h1 : i < fbs.length) (h2 : i < [sample_image].length),
        fbs[i] = { render_pass := sample_render_pass
                   attachments := [{ image := [sample_image][i] }] } :=
  setup_framebuffers_per_image [sample_image] sample_render_pass
    sample_viewport sample_image rfl

/-- C8: every framebuffer (re)build overwrites the viewport's dimensions
with the dimensions of the first image of the set (cast to f32); the
resulting viewport depends on no image but the first. -/
theorem setup_viewport_first_image (images : List SwapchainImage)
    (rp : RenderPass) (vp : Viewport) (img0 : SwapchainImage)
    (h0 : images[0]? = some img0) :
    ∃ (fbs : List Framebuffer),
      window_size_dependent_setup images rp vp =
        Except.ok (fbs,
          { vp with dimensions :=
              (Float.ofNat img0.dimensions.1,
               Float.ofNat img0.dimensions.2) }) := by
  refine ⟨images.map (fun image =>
      { render_pass := rp
        attachments := [{ image := image }] }), ?_⟩
  unfold window_size_dependent_setup
  rw [h0]

theorem setup_viewport_first_image_witness :
    ∃ (fbs : List Framebuffer),
      window_size_dependent_setup [sample_image] sample_render_pass
          sample_viewport =
        Except.ok (fbs,
          { sample_viewport with dimensions :=
              (Float.ofNat sample_image.dimensions.1,
               Float.ofNat sample_image.dimensions.2) }) :=
  setup_viewport_first_image [sample_image] sample_render_pass
    sample_viewport sample_image rfl

/-- C9: `get_swapchain` indexes the surface-format list at 1 with no bounds
guard: if the device reports fewer than two formats (and the
composite-alpha query itself succeeds), the call panics with an
index-out-of-bounds failure instead of falling back to the first format. -/
theorem get_swapchain_short_formats_panics (cmin : Nat) (usage : ImageUsage)
    (alphas : List CompositeAlpha) (alpha0 : CompositeAlpha)
    (surface_formats : List (Format × ColorSpace)) (ext : Nat × Nat)
    (ha : alphas.head? = some alpha0)
    (hlen : surface_formats.length < 2) :
    get_swapchain cmin usage alphas surface_formats ext =
      Except.error ("index out of bounds: the len is " ++
        toString surface_formats.length ++ " but the index is 1") := by
  have hf : surface_formats[1]? = none := by
    rw [List.getElem?_eq_none]
    omega
  unfold get_swapchain
  rw [ha, hf]

theorem get_swapchain_short_formats_panics_witness :
    get_swapchain 2 { flags := 1 } [CompositeAlpha.Opaque]
        [({ code := 10 }, { code := 0 })] (640, 480) =
      Except.error ("index out of bounds: the len is 1 but the index is 1") :=
  get_swapchain_short_formats_panics 2 { flags := 1 }
    [CompositeAlpha.Opaque] CompositeAlpha.Opaque
    [({ code := 10 }, { code := 0 })] (640, 480) rfl (by decide)

/-- C10: the in-flight future field is `Some` after construction and after
every normally-returning `render` call — including the `OutOfDate` early
return, whose cleanup step takes from a borrowed temporary and leaves the
field itself untouched — and `recreate_swapchain` never modifies the field;
hence a render call never observes a missing previous-frame future. -/
theorem previous_frame_end_invariant :
    initial_previous_frame_end.isSome = true ∧
    (∀ (s : Graphicengine) (recreate_flag : Bool) (acq : AcquireResult)
        (flush_err : Option FlushError) (s' : Graphicengine) (flag' : Bool)
        (effs : RenderEffects),
      render s recreate_flag acq flush_err = Except.ok (s', flag', effs) →
      s'.previous_frame_end.isSome = true) ∧
    (∀ (s : Graphicengine) (recreate_flag : Bool) (ext : Nat × Nat)
        (driver : Except SwapchainCreationError (List SwapchainImage))
        (s' : Graphicengine) (flag' : Bool),
      recreate_swapchain s recreate_flag ext driver = Except.ok (s', flag') →
      s'.previous_frame_end = s.previous_frame_end) := by
  refine ⟨rfl, ?_, ?_⟩
  · intro s recreate_flag acq flush_err s' flag' effs h
    unfold render at h
    split at h
    · exact Except.noConfusion h
    · rename_i prev hp
      split at h
      · injection h with h1
        injection h1 with ha hb
        subst ha
        rw [hp]
        rfl
      · exact Except.noConfusion h
      · repeat' split at h
        all_goals
          first
            | (injection h with h1
               injection h1 with ha hb
               subst ha
               rfl)
            | injection h
  · intro s recreate_flag ext driver s' flag' h
    unfold recreate_swapchain at h
    split at h
    · injection h with h1
      injection h1 with ha hb
      subst ha
      rfl
    · exact Except.noConfusion h
    · split at h
      · exact Except.noConfusion h
      · injection h with h1
        injection h1 with ha hb
        subst ha
        rfl

theorem previous_frame_end_invariant_witness :
    sample_engine.previous_frame_end.isSome = true :=
  previous_frame_end_invariant.2.1 sample_engine false
    (AcquireResult.err AcquireError.OutOfDate) none sample_engine true
    { recorded := false, submitted := false, presented := false
      logged := none }
    rfl

end VulkanTutorial
